import Mathlib

/-!
Verification development for the `atlite` cutout core
(`src/atlite/cutout.py`): path resolution (`ensure_path`), the
four-state constructor (`Cutout.__init__`), prepared-feature
normalization, the grid-cell cache accessor (`Cutout._grid_cells`)
and spatial subsetting (`Cutout.sel`).

Modelling conventions:
- Python exceptions are the constructors of `PyError`; fallible code
  returns `Except PyError _`.
- Filesystem paths are lists of components (`FsPath`); the filesystem
  and configuration are an explicit `Env` record of pure predicates.
- A dataset's mutable attribute dictionary (`data.attrs`) is the one
  piece of Python reference-mutated state this code touches
  (lines 128, 155, 158 of cutout.py assign into it), so attribute
  bags live in an explicit heap `AttrStore`; a `Dataset` holds a
  reference (index) into that heap plus its immutable coordinate
  grid.  Coordinates are modelled as `Int` axis values.
- The per-instance grid-cell cache slot (`_grid_cells_cache`) is
  passed explicitly as `Option GridCells` state.
-/

/-- Python exception classes raised (or catchable) in cutout.py.
`assertionYears` is the `assert 'years' in cutoutparams` on line 113,
`assertionPF` the `assert prepared_features is not None` on line 125. -/
inductive PyError where
  | runtimeError
  | attributeError
  | assertionYears
  | assertionPF
  | keyError
  | eofError
  | osError
  | unpicklingError
deriving DecidableEq, Repr

/-- A filesystem path, as a list of components. -/
abbrev FsPath := List String

/-- The value stored under the `prepared_features` attribute key:
either a bare scalar string or a list of strings (cutout.py
lines 124-128 distinguish exactly these with `isinstance(..., list)`). -/
inductive PFVal where
  | str (s : String)
  | list (l : List String)
deriving DecidableEq, Repr

/-- A dataset attribute dictionary, restricted to the keys cutout.py
reads or writes (`name`, `module`, `prepared_features`,
`creation_parameters`, `projection`); an absent key is `none`. -/
structure Attrs where
  name : Option String := none
  module : Option String := none
  prepared_features : Option PFVal := none
  creation_parameters : Option String := none
  projection : Option String := none
deriving DecidableEq, Repr

/-- The coordinate grid of a dataset: the two spatial axes.  (Only the
spatial axes are needed by the claims; xarray keeps them immutable,
and no line of cutout.py writes to coordinates.) -/
structure Coords where
  x : List Int := []
  y : List Int := []
deriving DecidableEq, Repr

/-- Heap of attribute dictionaries; a reference is an index.
Allocation appends. -/
abbrev AttrStore := List Attrs

/-- Dereference; a dangling reference yields the empty dictionary. -/
def AttrStore.get (st : AttrStore) (r : Nat) : Attrs :=
  st.getD r {}

/-- In-place update of the dictionary behind a reference. -/
def AttrStore.put (st : AttrStore) (r : Nat) (a : Attrs) : AttrStore :=
  st.set r a

/-- Allocate a fresh dictionary, returning the new heap and reference. -/
def AttrStore.alloc (st : AttrStore) (a : Attrs) : AttrStore × Nat :=
  (st ++ [a], st.length)

/-- An xarray dataset handle: a reference to its (shared, mutable)
attribute dictionary plus its immutable coordinate grid. -/
structure Dataset where
  attrsRef : Nat
  coords : Coords
deriving DecidableEq, Repr

/-- Environment: current working directory, the configured
`config.cutout_dir`, filesystem predicates, the stored content that
`xr.open_dataset` yields for a file path, the dataset that the
external `utils.migrate_from_cutout_directory` yields for a directory
path (that routine is not under src; the spec only says it maps
`(path, construction_parameters, config)` to a dataset handle), and
the names registered in `sys.modules` under `atlite.datasets.`
(looked up on line 161 of cutout.py). -/
structure Env where
  cwd : FsPath := []
  cutout_dir : Option FsPath := none
  isFile : FsPath → Bool := fun _ => false
  isDir : FsPath → Bool := fun _ => false
  fileData : FsPath → Attrs × Coords := fun _ => ({}, {})
  dirData : FsPath → Attrs × Coords := fun _ => ({}, {})
  sysModules : List String := ["era5"]

/-- `name if name.endswith(".nc") else name + ".nc"` (line 71). -/
def nameNc (name : String) : String :=
  if name.endsWith ".nc" then name else name ++ ".nc"

/-- The fallback path of `ensure_path` (lines 85-88):
`cutout_dir / name_nc` when a cutout directory is configured,
otherwise `cwd / name_nc`. -/
def fallbackPath (name : String) (env : Env) : FsPath :=
  match env.cutout_dir with
  | some d => d ++ [nameNc name]
  | none => env.cwd ++ [nameNc name]

/-- `ensure_path` (cutout.py lines 52-88): translate `name` to the
full path of a cutout netcdf file or directory of an old-style
cutout.  Candidates are tried in order only when the caller supplied
no in-memory data. -/
def ensure_path (name : String) (has_data : Bool) (env : Env) : FsPath :=
  if !has_data && env.isFile (env.cwd ++ [nameNc name]) then
    env.cwd ++ [nameNc name]
  else if !has_data &&
      (env.cutout_dir.elim false fun d => env.isFile (d ++ [nameNc name])) then
    env.cutout_dir.getD [] ++ [nameNc name]
  else if !has_data && env.isDir (env.cwd ++ [name]) then
    env.cwd ++ [name]
  else if !has_data &&
      (env.cutout_dir.elim false fun d => env.isDir (d ++ [name])) then
    env.cutout_dir.getD [] ++ [name]
  else
    fallbackPath name env

/-- The keyword arguments `**cutoutparams` of `Cutout.__init__`,
restricted to the keys the constructor inspects.  `buffer` is listed
because `**cutoutparams` accepts it silently; no line of `__init__`
reads it. -/
structure CutoutParams where
  x : Option (Int × Int) := none
  y : Option (Int × Int) := none
  time : Option (String × String) := none
  bounds : Option (Int × Int × Int × Int) := none
  buffer : Option Int := none
  module : Option String := none
  xs : Option (Int × Int) := none
  ys : Option (Int × Int) := none
  years : Option (Int × Int) := none
  months : Option (Int × Int) := none
deriving DecidableEq, Repr

/-- Parameter normalization of `Cutout.__init__` (lines 101-117):
`bounds` is popped and split into `x`/`y` slices (no buffering);
deprecated `xs`/`ys` rename to `x`/`y` (overwriting them); a
`years`/`months` pair combines into a `time` slice of formatted
strings, with `assert 'years' in cutoutparams` raising when `months`
is given without `years`. -/
def normalizeParams (p : CutoutParams) : Except PyError CutoutParams :=
  let p := match p.bounds with
    | some (x1, y1, x2, y2) =>
      { p with x := some (x1, x2), y := some (y1, y2), bounds := none }
    | none => p
  let p := match p.xs with
    | some v => { p with x := some v, xs := none }
    | none => p
  let p := match p.ys with
    | some v => { p with y := some v, ys := none }
    | none => p
  if p.years.isSome || p.months.isSome then
    match p.years with
    | none => .error .assertionYears
    | some (ya, yb) =>
      let m := p.months.getD (1, 12)
      .ok { p with
        time := some (toString ya ++ "-" ++ toString m.1,
                      toString yb ++ "-" ++ toString m.2),
        years := none, months := none }
  else
    .ok p

/-- The `name` argument of `Cutout.__init__`: a string, or an xarray
dataset passed in the name position (lines 95-97). -/
inductive NameArg where
  | str (s : String)
  | ds (d : Dataset)

/-- The cutout object built by `__init__`: resolved path, view flag
and owned dataset handle. -/
structure Cutout where
  cutout_path : FsPath
  is_view : Bool
  data : Dataset
deriving DecidableEq, Repr

/-- Lines 150-161 of `Cutout.__init__`, common to all states: module
reconciliation (a declared `module` parameter overrides the dataset's
attribute on disagreement; with no parameter and no attribute the
default `era5` is written), then the `sys.modules` lookup of
`atlite.datasets.<module>`, which raises `KeyError` when no such
module is registered. -/
def finishInit (cutout_path : FsPath) (is_view : Bool) (d : Dataset)
    (p : CutoutParams) (env : Env) (store : AttrStore) :
    Except PyError (Cutout × AttrStore) :=
  let store := match p.module with
    | some m =>
      if some m ≠ (store.get d.attrsRef).module then
        store.put d.attrsRef { store.get d.attrsRef with module := some m }
      else store
    | none =>
      if (store.get d.attrsRef).module = none then
        store.put d.attrsRef { store.get d.attrsRef with module := some "era5" }
      else store
  let m := (store.get d.attrsRef).module.getD "era5"
  if m ∈ env.sysModules then
    .ok ({ cutout_path := cutout_path, is_view := is_view, data := d }, store)
  else
    .error .keyError

/-- The dead parameter check of the FreshDeclare branch
(cutout.py lines 136-137): `x`, `y` and `time` must all be present,
else `RuntimeError`.  In the source this line is unreachable, see
`cutoutInit`. -/
def freshDeclareCheck (p : CutoutParams) : Except PyError Unit :=
  if p.x = none || p.y = none || p.time = none then
    .error .runtimeError
  else
    .ok ()

/-- State selection of `Cutout.__init__` (cutout.py lines 119-148),
yielding the view flag, the dataset handle and the updated heap.
With no caller data, an existing file enters FileLoad (open the
store, require `prepared_features` - `AssertionError` when absent -
and normalize a scalar value to a singleton list in place), an
existing directory enters LegacyMigrate (external migration routine,
`is_view = True`), and a nonexistent path enters FreshDeclare - where
line 134 interpolates `self.cutout_dir` into the log message although
the class defines no such attribute, so an `AttributeError` is raised
there and lines 136-144 (the `x`/`y`/`time` check and the fresh
dataset) are unreachable.  Caller-supplied data is used as-is with
`is_view = True`. -/
def loadState (cutout_path : FsPath) (data : Option Dataset) (env : Env)
    (store : AttrStore) : Except PyError (Bool × Dataset × AttrStore) :=
  match data with
  | none =>
    if env.isFile cutout_path then
      let fd := env.fileData cutout_path
      let sr := store.alloc fd.1
      match (sr.1.get sr.2).prepared_features with
      | none => .error .assertionPF
      | some pf =>
        let store2 := match pf with
          | .str s =>
            sr.1.put sr.2
              { sr.1.get sr.2 with prepared_features := some (.list [s]) }
          | .list _ => sr.1
        .ok (false, ⟨sr.2, fd.2⟩, store2)
    else if env.isDir cutout_path then
      let dd := env.dirData cutout_path
      let sr := store.alloc dd.1
      .ok (true, ⟨sr.2, dd.2⟩, sr.1)
    else
      .error .attributeError
  | some d => .ok (true, d, store)

/-- `Cutout.__init__` (cutout.py lines 91-161): dataset-in-name-
position swap, path resolution, parameter normalization, state
selection (`loadState`), then module reconciliation and module lookup
(`finishInit`). -/
def cutoutInit (name : NameArg) (data : Option Dataset) (p : CutoutParams)
    (env : Env) (store : AttrStore) : Except PyError (Cutout × AttrStore) :=
  let nd : String × Option Dataset := match name, data with
    | .ds d, _ => ((store.get d.attrsRef).name.getD "unnamed", some d)
    | .str s, d0 => (s, d0)
  let cutout_path := ensure_path nd.1 nd.2.isSome env
  match normalizeParams p with
  | .error e => .error e
  | .ok p =>
    match loadState cutout_path nd.2 env store with
    | .error e => .error e
    | .ok r => finishInit cutout_path r.1 r.2.1 p env r.2.2

/-- Python's `set(...)` over a `prepared_features` value: a list
yields the set of its elements; a bare string, being iterable, yields
the set of its individual characters as one-character strings. -/
def pySetOfPF : PFVal → Finset String
  | .str s => (s.data.map fun c => String.mk [c]).toFinset
  | .list l => l.toFinset

/-- The set of one-character strings of `s` - what Python's
`set("...")` produces on a bare string. -/
def charSet (s : String) : Finset String :=
  (s.data.map fun c => String.mk [c]).toFinset

/-- The `prepared_features` property (cutout.py lines 199-201):
`set(self.data.attrs.get("prepared_features", []))`. -/
def Cutout.prepared_features (c : Cutout) (store : AttrStore) : Finset String :=
  pySetOfPF ((store.get c.data.attrsRef).prepared_features.getD (.list []))

/-- Python `Path.stem` of a single component: the component without
its final suffix (a lone leading dot is not a suffix separator). -/
def pyStem (s : String) : String :=
  let ps := s.splitOn "."
  if ps.length ≤ 1 then s
  else if String.intercalate "." ps.dropLast = "" then s
  else String.intercalate "." ps.dropLast

/-- The `name` property (lines 163-165): `self.cutout_path.stem`. -/
def Cutout.name (c : Cutout) : String :=
  pyStem (c.cutout_path.getLastD "")

/-- The `extent` property (lines 189-192): first and last coordinate
value of each spatial axis; `none` models the index error on an empty
axis. -/
def Cutout.extent (c : Cutout) : Option (Int × Int × Int × Int) :=
  match c.data.coords.x.head?, c.data.coords.x.getLast?,
      c.data.coords.y.head?, c.data.coords.y.getLast? with
  | some a, some b, some c1, some d1 => some (a, b, c1, d1)
  | _, _, _, _ => none

/-- The spatial index: one cell per grid point.  The cell geometries
themselves are built by the external gis collaborator; what this core
determines is the collection of grid points, so cells are modelled by
their coordinate pairs. -/
structure GridCells where
  cells : List (Int × Int)
deriving DecidableEq, Repr

/-- `grid_coordinates` (cutout.py lines 203-205): `np.meshgrid` of the
x and y axes, ravelled - the cross product with y as the outer axis
and x as the inner axis, each row an `(x, y)` pair. -/
def grid_coordinates (c : Coords) : List (Int × Int) :=
  (c.y.map fun yv => c.x.map fun xv => (xv, yv)).flatten

/-- Modelled from the spec: `GridCells.from_cutout` lives in the
external gis module (not under src); per spec section 4.4 the
build-from-scratch path derives the full cross product of the axis
coordinate values, y outer and x inner, one cell per point - i.e. the
cutout's `grid_coordinates`. -/
def GridCells.from_cutout (c : Cutout) : GridCells :=
  ⟨grid_coordinates c.data.coords⟩

/-- Environment of the grid-cell accessor: whether the cache artifact
exists, and what deserializing it yields.  Modelled from the spec:
`GridCells.from_file` lives in the external gis module (not under
src); the spec says only that the artifact is a serialized (pickle)
form read opportunistically and that deserialization can fail on
corrupt or truncated content or on I/O errors, so the outcome is
supplied by the environment: success, or any raised exception class
(Python pickle signals truncation as `EOFError`, I/O failures as
`OSError`, and corrupt content as `pickle.UnpicklingError`). -/
structure GisEnv where
  sindexExists : FsPath → Bool := fun _ => false
  from_file : FsPath → Except PyError GridCells := fun _ => .error .eofError

/-- The cache artifact path (line 213):
`cutout_path.parent / (name ++ ".sindex.pickle")`. -/
def sindexFn (c : Cutout) : FsPath :=
  c.cutout_path.dropLast ++ [c.name ++ ".sindex.pickle"]

/-- The `_grid_cells` accessor (cutout.py lines 207-227) with the
per-instance cache slot passed explicitly.  A filled slot is returned
as-is.  Otherwise, when the cutout is not a view and the cache
artifact exists, deserialization is attempted under
`except (EOFError, OSError)`: those two classes are logged and fall
through to a rebuild, any other exception class propagates.  The
result is stored in the slot. -/
def gridCellsGet (c : Cutout) (cache : Option GridCells) (genv : GisEnv) :
    Except PyError (GridCells × Option GridCells) :=
  match cache with
  | some g => .ok (g, some g)
  | none =>
    let tryCache : Except PyError (Option GridCells) :=
      if !c.is_view && genv.sindexExists (sindexFn c) then
        match genv.from_file (sindexFn c) with
        | .ok g => .ok (some g)
        | .error e =>
          if e = .eofError || e = .osError then .ok none else .error e
      else .ok none
    match tryCache with
    | .error e => .error e
    | .ok og =>
      let g := match og with
        | some g => g
        | none => GridCells.from_cutout c
      .ok (g, some g)

/-- The keyword arguments of `Cutout.sel` that the claims exercise:
per-axis slices or the `bounds`/`buffer` convenience form. -/
structure SelArgs where
  x : Option (Int × Int) := none
  y : Option (Int × Int) := none
  bounds : Option (Int × Int × Int × Int) := none
  buffer : Option Int := none
deriving DecidableEq, Repr

/-- The bounds handling of `Cutout.sel` (lines 234-240): `bounds` and
`buffer` are popped; with a positive buffer the box is geometrically
buffered first - for an axis-aligned box, shapely's
`box(*bounds).buffer(b).bounds` is exactly
`(x1 - b, y1 - b, x2 + b, y2 + b)` (the straight edges of the
buffered polygon lie at those offsets) - then split into `x` and `y`
slices. -/
def selNormalize (a : SelArgs) : SelArgs :=
  match a.bounds with
  | none => a
  | some bd =>
    let buf := a.buffer.getD 0
    let bd := if buf > 0 then
        (bd.1 - buf, bd.2.1 - buf, bd.2.2.1 + buf, bd.2.2.2 + buf)
      else bd
    { x := some (bd.1, bd.2.2.1), y := some (bd.2.1, bd.2.2.2),
      bounds := none, buffer := none }

/-- xarray label-based slice selection on an ascending coordinate
axis: keep the values between the slice endpoints, both inclusive. -/
def sliceSel (vals : List Int) (s : Option (Int × Int)) : List Int :=
  match s with
  | none => vals
  | some (a, b) => vals.filter fun v => a ≤ v && v ≤ b

/-- `self.data.sel(**kwargs)`: a new dataset with the narrowed
coordinate grid; xarray copies the attribute dictionary into the new
dataset, so a fresh reference is allocated. -/
def dsSel (d : Dataset) (a : SelArgs) (store : AttrStore) :
    Dataset × AttrStore :=
  let sr := store.alloc (store.get d.attrsRef)
  (⟨sr.2, ⟨sliceSel d.coords.x a.x, sliceSel d.coords.y a.y⟩⟩, sr.1)

/-- `Cutout.sel` (cutout.py lines 233-242): normalize the
`bounds`/`buffer` form, apply label selection to the owned dataset,
and re-enter the constructor with the receiver's name and the
narrowed dataset (the caller-supplied-data state). -/
def Cutout.sel (c : Cutout) (a : SelArgs) (env : Env) (store : AttrStore) :
    Except PyError (Cutout × AttrStore) :=
  let a := selNormalize a
  let ds := dsSel c.data a store
  cutoutInit (.str c.name) (some ds.1) {} env ds.2

/-! ### Concrete instances used by counterexamples and witnesses -/

/-- An environment with an empty filesystem and no configured cutout
directory. -/
def envEmpty : Env := {}

/-- Construction parameters with `x`, `y` and `time` all present. -/
def paramsFull : CutoutParams :=
  { x := some (0, 10), y := some (0, 10), time := some ("2011", "2012") }

/-- Construction parameters with `x`, `y`, `time` and a declared
module. -/
def paramsFullFoo : CutoutParams :=
  { x := some (0, 10), y := some (0, 10), time := some ("2011", "2012"),
    module := some "foo" }

/-- Construction parameters carrying only the `bounds` box and a
positive `buffer` margin. -/
def paramsBoundsBuffer : CutoutParams :=
  { bounds := some (0, 0, 10, 10), buffer := some 2 }

/-- An environment where every candidate location exists, for
exercising resolution priority. -/
def envC3 : Env :=
  { cwd := ["home"], cutout_dir := some ["cfg"],
    isFile := fun _ => true, isDir := fun _ => true }

/-- Stored attributes of a persisted `era5` store with the given
`prepared_features` value. -/
def attrsEra5PF (pf : PFVal) : Attrs :=
  { module := some "era5", prepared_features := some pf }

/-- An environment whose every path is a file holding an `era5` store
with the given `prepared_features` value; both `era5` and `foo` are
registered dataset modules. -/
def envFileEra5 (pf : PFVal) : Env :=
  { isFile := fun _ => true, sysModules := ["era5", "foo"],
    fileData := fun _ => (attrsEra5PF pf, { x := [0, 1], y := [5] }) }

/-- An environment whose every path is a file holding a store with no
`prepared_features` attribute. -/
def envFileNoPF : Env :=
  { isFile := fun _ => true,
    fileData := fun _ => ({ module := some "era5" }, {}) }

/-- A one-cell heap: an `era5` attribute bag whose
`prepared_features` was stored as the bare string `"wind"`. -/
def storeWind : AttrStore := [attrsEra5PF (.str "wind")]

/-- A caller-supplied dataset referring to the heap cell of
`storeWind`. -/
def dsWind : Dataset := ⟨0, { x := [0], y := [0] }⟩

/-- A non-view cutout over a 4 x 3 grid. -/
def cutoutGrid : Cutout :=
  { cutout_path := ["c.nc"], is_view := false,
    data := ⟨0, { x := [0, 1, 2, 3], y := [0, 1, 2] }⟩ }

/-- A one-cell heap holding an `era5` attribute bag (no prepared
features recorded). -/
def storeEra5 : AttrStore := [{ module := some "era5" }]

/-- A gis environment whose cache artifact exists but deserializes
with `pickle.UnpicklingError` (corrupt content). -/
def genvCorrupt : GisEnv :=
  { sindexExists := fun _ => true, from_file := fun _ => .error .unpicklingError }

/-- A gis environment whose cache artifact exists but deserializes
with `EOFError` (truncated content). -/
def genvEof : GisEnv :=
  { sindexExists := fun _ => true, from_file := fun _ => .error .eofError }

/-! ### Heap lemmas -/

theorem attrStore_get_append (st : AttrStore) (a : Attrs) (i : Nat)
    (h : i < st.length) : AttrStore.get (st ++ [a]) i = AttrStore.get st i := by
  induction st generalizing i with
  | nil => exact absurd h (Nat.not_lt_zero i)
  | cons b st ih =>
    cases i with
    | zero => rfl
    | succ n => exact ih n (Nat.lt_of_succ_lt_succ h)

theorem attrStore_get_append_len (st : AttrStore) (a : Attrs) :
    AttrStore.get (st ++ [a]) st.length = a := by
  induction st with
  | nil => rfl
  | cons b st ih => exact ih

theorem attrStore_get_put_self (st : AttrStore) (i : Nat) (a : Attrs)
    (h : i < st.length) : AttrStore.get (st.put i a) i = a := by
  induction st generalizing i with
  | nil => exact absurd h (Nat.not_lt_zero i)
  | cons b st ih =>
    cases i with
    | zero => rfl
    | succ n => exact ih n (Nat.lt_of_succ_lt_succ h)

/-! ### Stage lemmas for the constructor -/

theorem loadState_caller (cutout_path : FsPath) (d : Dataset) (env : Env)
    (st : AttrStore) : loadState cutout_path (some d) env st = .ok (true, d, st) :=
  rfl

theorem loadState_file_nopf (cutout_path : FsPath) (env : Env) (st : AttrStore)
    (hfile : env.isFile cutout_path = true)
    (hpf : (env.fileData cutout_path).1.prepared_features = none) :
    loadState cutout_path none env st = .error .assertionPF := by
  simp [loadState, AttrStore.alloc, attrStore_get_append_len, hfile, hpf]

theorem loadState_file_str (cutout_path : FsPath) (env : Env) (st : AttrStore)
    (s0 : String) (hfile : env.isFile cutout_path = true)
    (hpf : (env.fileData cutout_path).1.prepared_features = some (.str s0)) :
    loadState cutout_path none env st =
      .ok (false, ⟨st.length, (env.fileData cutout_path).2⟩,
        (st ++ [(env.fileData cutout_path).1]).put st.length
          { (env.fileData cutout_path).1 with
            prepared_features := some (.list [s0]) }) := by
  simp [loadState, AttrStore.alloc, attrStore_get_append_len, hfile, hpf,
    AttrStore.put]

theorem loadState_file_list (cutout_path : FsPath) (env : Env) (st : AttrStore)
    (l : List String) (hfile : env.isFile cutout_path = true)
    (hpf : (env.fileData cutout_path).1.prepared_features = some (.list l)) :
    loadState cutout_path none env st =
      .ok (false, ⟨st.length, (env.fileData cutout_path).2⟩,
        st ++ [(env.fileData cutout_path).1]) := by
  simp [loadState, AttrStore.alloc, attrStore_get_append_len, hfile, hpf]

theorem finishInit_keep (cutout_path : FsPath) (iv : Bool) (d : Dataset)
    (p : CutoutParams) (env : Env) (st : AttrStore) (m : String)
    (hp : p.module = none) (hm : (st.get d.attrsRef).module = some m)
    (hreg : m ∈ env.sysModules) :
    finishInit cutout_path iv d p env st =
      .ok ({ cutout_path := cutout_path, is_view := iv, data := d }, st) := by
  simp [finishInit, hp, hm, hreg]

theorem finishInit_override (cutout_path : FsPath) (iv : Bool) (d : Dataset)
    (p : CutoutParams) (env : Env) (st : AttrStore) (m : String)
    (hp : p.module = some m) (hne : some m ≠ (st.get d.attrsRef).module)
    (href : d.attrsRef < st.length) (hreg : m ∈ env.sysModules) :
    finishInit cutout_path iv d p env st =
      .ok ({ cutout_path := cutout_path, is_view := iv, data := d },
        st.put d.attrsRef { st.get d.attrsRef with module := some m }) := by
  simp [finishInit, hp, hne, attrStore_get_put_self _ _ _ href, hreg]

theorem finishInit_default (cutout_path : FsPath) (iv : Bool) (d : Dataset)
    (p : CutoutParams) (env : Env) (st : AttrStore)
    (hp : p.module = none) (hm : (st.get d.attrsRef).module = none)
    (href : d.attrsRef < st.length) (hreg : "era5" ∈ env.sysModules) :
    finishInit cutout_path iv d p env st =
      .ok ({ cutout_path := cutout_path, is_view := iv, data := d },
        st.put d.attrsRef { st.get d.attrsRef with module := some "era5" }) := by
  simp [finishInit, hp, hm, attrStore_get_put_self _ _ _ href, hreg]

theorem finishInit_ne_assertionPF (cutout_path : FsPath) (iv : Bool)
    (d : Dataset) (p : CutoutParams) (env : Env) (st : AttrStore) :
    finishInit cutout_path iv d p env st ≠ .error .assertionPF := by
  simp only [finishInit]
  rcases p.module with _ | m <;> dsimp only <;> split <;> split <;> simp

theorem cutoutInit_str (s : String) (data : Option Dataset)
    (p p2 : CutoutParams) (env : Env) (st : AttrStore)
    (hn : normalizeParams p = .ok p2) :
    cutoutInit (.str s) data p env st =
      match loadState (ensure_path s data.isSome env) data env st with
      | .error e => .error e
      | .ok r =>
        finishInit (ensure_path s data.isSome env) r.1 r.2.1 p2 env r.2.2 := by
  simp only [cutoutInit]
  rw [hn]

/-! ### Claim theorems -/

/-- Claim C1 (code-bug evidence).  In the FreshDeclare state (no
caller data, resolved path neither file nor directory) construction
raises `AttributeError` - line 134 interpolates the nonexistent
attribute `self.cutout_dir` into its log message - both when `x`, `y`
and `time` are all missing and when all are present, so the intended
configuration check (lines 136-137, `freshDeclareCheck`, which would
raise `RuntimeError` exactly when one of them is missing) is dead
code.  No dataset object and no partial Cutout is ever produced in
this state. -/
theorem c1_freshdeclare_attribute_error :
    cutoutInit (.str "newcutout") none {} envEmpty [] = .error .attributeError ∧
    cutoutInit (.str "newcutout") none paramsFull envEmpty [] =
      .error .attributeError ∧
    freshDeclareCheck {} = .error .runtimeError ∧
    freshDeclareCheck paramsFull = .ok () := by
  refine ⟨rfl, rfl, rfl, rfl⟩

/-- Claim C2, counterexample.  For a non-view cutout whose spatial-
index cache artifact exists, a deserialization failure of a class
other than `EOFError`/`OSError` - here `pickle.UnpicklingError`, the
class Python's pickle raises on corrupt (as opposed to truncated)
content - escapes the `except (EOFError, OSError)` clause on line 218
and propagates to the caller of the grid-cells accessor, refuting
"never propagated". -/
theorem c2_corrupt_cache_propagates :
    cutoutGrid.is_view = false ∧
    genvCorrupt.sindexExists (sindexFn cutoutGrid) = true ∧
    gridCellsGet cutoutGrid none genvCorrupt = .error .unpicklingError := by
  refine ⟨rfl, rfl, rfl⟩

/-- Claim C2, amended: for a non-view cutout whose cache artifact
exists, a deserialization failure raised as `EOFError` or `OSError`
(truncated artifact, I/O error) is caught, logged and recovered by
rebuilding the index from the coordinate grid, returning normally;
failures of other exception classes propagate. -/
theorem c2_eof_os_errors_recovered (c : Cutout) (genv : GisEnv) (e : PyError)
    (hv : c.is_view = false) (hex : genv.sindexExists (sindexFn c) = true)
    (hf : genv.from_file (sindexFn c) = .error e)
    (he : e = .eofError ∨ e = .osError) :
    gridCellsGet c none genv =
      .ok (GridCells.from_cutout c, some (GridCells.from_cutout c)) := by
  rcases he with rfl | rfl <;> simp [gridCellsGet, hv, hex, hf]

/-- Witness for the amended C2 theorem at a concrete truncated-cache
environment. -/
theorem c2_eof_os_errors_recovered_witness :
    gridCellsGet cutoutGrid none genvEof =
      .ok (GridCells.from_cutout cutoutGrid,
        some (GridCells.from_cutout cutoutGrid)) :=
  c2_eof_os_errors_recovered cutoutGrid genvEof .eofError rfl rfl rfl
    (Or.inl rfl)

/-- Claim C3.  `ensure_path` tries, in strict priority order: the cwd
file with suffix, the configured-directory file with suffix, the cwd
directory, the configured directory; in particular an existing
`<cwd>/<name>.nc` file wins regardless of anything else.  When
in-memory data was supplied, or when no candidate exists, the
fallback (`<cutout_dir>/<name>.nc`, or `<cwd>/<name>.nc` with no
configured directory) is returned without error. -/
theorem c3_ensure_path_priority (name : String) (env : Env) :
    (env.isFile (env.cwd ++ [nameNc name]) = true →
      ensure_path name false env = env.cwd ++ [nameNc name]) ∧
    (∀ d, env.cutout_dir = some d →
      env.isFile (env.cwd ++ [nameNc name]) = false →
      env.isFile (d ++ [nameNc name]) = true →
      ensure_path name false env = d ++ [nameNc name]) ∧
    (env.isFile (env.cwd ++ [nameNc name]) = false →
      (env.cutout_dir.elim false fun d => env.isFile (d ++ [nameNc name]))
        = false →
      env.isDir (env.cwd ++ [name]) = true →
      ensure_path name false env = env.cwd ++ [name]) ∧
    (∀ d, env.cutout_dir = some d →
      env.isFile (env.cwd ++ [nameNc name]) = false →
      env.isFile (d ++ [nameNc name]) = false →
      env.isDir (env.cwd ++ [name]) = false →
      env.isDir (d ++ [name]) = true →
      ensure_path name false env = d ++ [name]) ∧
    (∀ has_data, ensure_path name has_data env = fallbackPath name env ∨
      has_data = false) ∧
    (env.isFile (env.cwd ++ [nameNc name]) = false →
      (env.cutout_dir.elim false fun d => env.isFile (d ++ [nameNc name]))
        = false →
      env.isDir (env.cwd ++ [name]) = false →
      (env.cutout_dir.elim false fun d => env.isDir (d ++ [name])) = false →
      ensure_path name false env = fallbackPath name env) := by
  refine ⟨?_, ?_, ?_, ?_, ?_, ?_⟩
  · intro h1
    simp [ensure_path, h1]
  · intro d hd h1 h2
    simp [ensure_path, hd, h1, h2]
  · intro h1 h2 h3
    simp [ensure_path, h1, h2, h3]
  · intro d hd h1 h2 h3 h4
    simp [ensure_path, hd, h1, h2, h3, h4]
  · intro has_data
    cases has_data with
    | false => exact Or.inr rfl
    | true => exact Or.inl (by simp [ensure_path])
  · intro h1 h2 h3 h4
    simp [ensure_path, h1, h2, h3, h4]

/-- Witness for C3: with both a cwd file and a fully populated
configured directory, resolution returns the cwd file. -/
theorem c3_ensure_path_priority_witness :
    envC3.isFile (envC3.cwd ++ [nameNc "n"]) = true ∧
    ensure_path "n" false envC3 = ["home", "n.nc"] :=
  ⟨rfl, (c3_ensure_path_priority "n" envC3).1 rfl⟩

/-- Claim C8.  The grid-cells accessor is idempotent and memoized: a
filled cache slot is returned identically under every environment
(no disk access, no recomputation), and a successful first access
writes the very object it returns into the slot, after which every
later access - again under any environment - returns that identical
object with the slot unchanged. -/
theorem c8_grid_cells_memoized :
    (∀ (c : Cutout) (g : GridCells) (genv : GisEnv),
      gridCellsGet c (some g) genv = .ok (g, some g)) ∧
    (∀ (c : Cutout) (genv genv2 : GisEnv) (g : GridCells)
        (cache2 : Option GridCells),
      gridCellsGet c none genv = .ok (g, cache2) →
      cache2 = some g ∧ gridCellsGet c cache2 genv2 = .ok (g, cache2)) := by
  constructor
  · intro c g genv
    rfl
  · intro c genv genv2 g cache2 h
    simp only [gridCellsGet] at h
    split at h
    · exact absurd h (by simp)
    · rw [Except.ok.injEq, Prod.mk.injEq] at h
      obtain ⟨hg, hc⟩ := h
      subst hg
      rw [← hc]
      exact ⟨rfl, rfl⟩

/-- Witness for C8: a concrete first access (rebuilding after a
truncated cache) fills the slot, and the second access returns the
identical object even under an environment whose cache read would
fail. -/
theorem c8_grid_cells_memoized_witness :
    some (GridCells.from_cutout cutoutGrid) =
      some (GridCells.from_cutout cutoutGrid) ∧
    gridCellsGet cutoutGrid (some (GridCells.from_cutout cutoutGrid))
        genvCorrupt =
      .ok (GridCells.from_cutout cutoutGrid,
        some (GridCells.from_cutout cutoutGrid)) :=
  c8_grid_cells_memoized.2 cutoutGrid genvEof genvCorrupt
    (GridCells.from_cutout cutoutGrid)
    (some (GridCells.from_cutout cutoutGrid)) rfl

/-- Claim C9, counterexample.  A construction supplying
`bounds = (0, 0, 10, 10)` together with the positive margin
`buffer = 2` splits the box into `x = slice(0, 10)` and
`y = slice(0, 10)` with no buffering - the buffered split would be
`slice(-2, 12)` - and leaves `buffer` as an unconsumed parameter:
lines 101-104 of `__init__` never read `buffer`. -/
theorem c9_construction_ignores_buffer :
    normalizeParams paramsBoundsBuffer =
      .ok { x := some (0, 10), y := some (0, 10), buffer := some 2 } ∧
    some ((0 : Int), (10 : Int)) ≠ some ((-2 : Int), (12 : Int)) := by
  refine ⟨rfl, by decide⟩

/-- Claim C9, amended: in construction, `bounds` is split into the
`x` and `y` axis ranges unbuffered, with any `buffer` parameter left
unread; a positive buffer margin is applied geometrically to `bounds`
only in `Cutout.sel`, before that split. -/
theorem c9_bounds_split_unbuffered_sel_buffers (x1 y1 x2 y2 b : Int)
    (p : CutoutParams) (hb : p.bounds = some (x1, y1, x2, y2))
    (hxs : p.xs = none) (hys : p.ys = none) (hyears : p.years = none)
    (hmonths : p.months = none) (hbpos : 0 < b) :
    normalizeParams p =
      .ok { p with x := some (x1, x2), y := some (y1, y2), bounds := none } ∧
    selNormalize { bounds := some (x1, y1, x2, y2), buffer := some b } =
      { x := some (x1 - b, x2 + b), y := some (y1 - b, y2 + b) } := by
  constructor
  · simp [normalizeParams, hb, hxs, hys, hyears, hmonths]
  · simp [selNormalize, hbpos]

/-- Witness for the amended C9 theorem at the concrete box
`(0, 0, 10, 10)` with margin 2. -/
theorem c9_bounds_split_unbuffered_sel_buffers_witness :
    normalizeParams paramsBoundsBuffer =
      .ok { paramsBoundsBuffer with
        x := some (0, 10), y := some (0, 10), bounds := none } ∧
    selNormalize { bounds := some (0, 0, 10, 10), buffer := some 2 } =
      { x := some (-2, 12), y := some (-2, 12) } :=
  c9_bounds_split_unbuffered_sel_buffers 0 0 10 10 2 paramsBoundsBuffer
    rfl rfl rfl rfl rfl (by decide)

/-- Claim C6.  A FileLoad construction (no caller data, resolved path
an existing file) fails with the assertion-style data-integrity error
of line 125 exactly when the opened store lacks the
`prepared_features` attribute; when the attribute is present the
construction never fails on its account. -/
theorem c6_fileload_requires_prepared_features (s : String) (env : Env)
    (st : AttrStore) (p p2 : CutoutParams)
    (hn : normalizeParams p = .ok p2)
    (hfile : env.isFile (ensure_path s false env) = true) :
    (cutoutInit (.str s) none p env st = .error .assertionPF ↔
      (env.fileData (ensure_path s false env)).1.prepared_features = none) := by
  rw [cutoutInit_str s none p p2 env st hn]
  simp only [Option.isSome_none]
  rcases hpf : (env.fileData (ensure_path s false env)).1.prepared_features
    with _ | pf
  · rw [loadState_file_nopf _ _ _ hfile hpf]
    simp
  · rcases pf with s0 | l
    · rw [loadState_file_str _ _ _ _ hfile hpf]
      simpa using finishInit_ne_assertionPF _ _ _ _ _ _
    · rw [loadState_file_list _ _ _ _ hfile hpf]
      simpa using finishInit_ne_assertionPF _ _ _ _ _ _

/-- Witness for C6: a concrete store with no `prepared_features`
attribute makes construction fail with the data-integrity assertion. -/
theorem c6_fileload_requires_prepared_features_witness :
    normalizeParams {} = .ok {} ∧
    envFileNoPF.isFile (ensure_path "w" false envFileNoPF) = true ∧
    cutoutInit (.str "w") none {} envFileNoPF [] = .error .assertionPF :=
  ⟨rfl, rfl,
    (c6_fileload_requires_prepared_features "w" envFileNoPF [] {} {} rfl
      rfl).mpr rfl⟩

/-- Claim C7.  Loading a persisted store whose `prepared_features`
was stored as a bare scalar string `w` yields a cutout whose
`prepared_features` property is the singleton set containing `w`
(line 128 wraps the scalar into a list); a stored list yields the set
of its elements. -/
theorem c7_scalar_prepared_features_normalizes (s w : String)
    (l : List String) (env : Env) (st : AttrStore) (m : String)
    (hfile : env.isFile (ensure_path s false env) = true)
    (hm : (env.fileData (ensure_path s false env)).1.module = some m)
    (hreg : m ∈ env.sysModules) :
    ((env.fileData (ensure_path s false env)).1.prepared_features =
        some (.str w) →
      ∃ c st2, cutoutInit (.str s) none {} env st = .ok (c, st2) ∧
        c.prepared_features st2 = {w}) ∧
    ((env.fileData (ensure_path s false env)).1.prepared_features =
        some (.list l) →
      ∃ c st2, cutoutInit (.str s) none {} env st = .ok (c, st2) ∧
        c.prepared_features st2 = l.toFinset) := by
  constructor
  · intro hpf
    rw [cutoutInit_str s none {} {} env st rfl]
    simp only [Option.isSome_none]
    rw [loadState_file_str _ _ _ _ hfile hpf]
    dsimp only
    have hlen : st.length <
        (st ++ [(env.fileData (ensure_path s false env)).1]).length := by
      simp
    have hget := attrStore_get_put_self
      (st ++ [(env.fileData (ensure_path s false env)).1]) st.length
      { (env.fileData (ensure_path s false env)).1 with
        prepared_features := some (.list [w]) } hlen
    rw [finishInit_keep _ _ _ _ _ _ m rfl (by rw [hget]; exact hm) hreg]
    refine ⟨_, _, rfl, ?_⟩
    simp [Cutout.prepared_features, hget, pySetOfPF]
  · intro hpf
    rw [cutoutInit_str s none {} {} env st rfl]
    simp only [Option.isSome_none]
    rw [loadState_file_list _ _ _ _ hfile hpf]
    dsimp only
    have hget := attrStore_get_append_len st
      (env.fileData (ensure_path s false env)).1
    rw [finishInit_keep _ _ _ _ _ _ m rfl (by rw [hget]; exact hm) hreg]
    refine ⟨_, _, rfl, ?_⟩
    simp [Cutout.prepared_features, hget, hpf, pySetOfPF]

/-- Witness for C7: loading a store carrying the bare string
`"wind"` yields the prepared-feature set containing exactly
`"wind"`. -/
theorem c7_scalar_prepared_features_normalizes_witness :
    (envFileEra5 (.str "wind")).fileData
        (ensure_path "w" false (envFileEra5 (.str "wind"))) =
      (attrsEra5PF (.str "wind"), { x := [0, 1], y := [5] }) ∧
    (∃ c st2,
      cutoutInit (.str "w") none {} (envFileEra5 (.str "wind")) [] =
        .ok (c, st2) ∧
      c.prepared_features st2 = {"wind"}) :=
  ⟨rfl,
    (c7_scalar_prepared_features_normalizes "w" "wind" [] (envFileEra5 (.str "wind"))
      [] "era5" rfl rfl (by decide)).1 rfl⟩

/-- Claim C10.  A cutout built from a caller-supplied dataset whose
`prepared_features` entry is a bare scalar string `s` reports the set
of the individual characters of `s`: the scalar-to-list normalization
of line 128 runs only in the file-load branch, and the property
(line 201) applies Python's `set(...)` to the raw string. -/
theorem c10_caller_supplied_scalar_pf_chars (s n : String) (d : Dataset)
    (env : Env) (st : AttrStore) (m : String)
    (hpf : (st.get d.attrsRef).prepared_features = some (.str s))
    (hm : (st.get d.attrsRef).module = some m) (hreg : m ∈ env.sysModules) :
    ∃ c st2, cutoutInit (.str n) (some d) {} env st = .ok (c, st2) ∧
      c.prepared_features st2 = charSet s := by
  rw [cutoutInit_str n (some d) {} {} env st rfl]
  rw [loadState_caller]
  dsimp only
  rw [finishInit_keep _ _ _ _ _ _ m rfl hm hreg]
  refine ⟨_, _, rfl, ?_⟩
  simp [Cutout.prepared_features, hpf, pySetOfPF, charSet]

/-- Witness for C10: the scalar `"wind"` on a caller-supplied dataset
yields the four-element character set, not the singleton
`{"wind"}`. -/
theorem c10_caller_supplied_scalar_pf_chars_witness :
    (∃ c st2,
      cutoutInit (.str "n") (some dsWind) {} envEmpty storeWind = .ok (c, st2) ∧
      c.prepared_features st2 = charSet "wind") ∧
    charSet "wind" = {"w", "i", "n", "d"} ∧ charSet "wind" ≠ {"wind"} :=
  ⟨c10_caller_supplied_scalar_pf_chars "wind" "n" dsWind envEmpty storeWind
      "era5" rfl rfl (by decide),
    by decide, by decide⟩

/-- Claim C5 (code-bug evidence).  In the three reachable loader
states the declared `module` parameter overrides the module recorded
on the dataset (lines 150-155): loading a persisted `era5` store with
a declared module `m` yields a cutout whose recorded module is `m`.
In the fourth state, FreshDeclare, the claim fails: construction
raises `AttributeError` at the line-134 log message before module
reconciliation can run, so declaring `module = "foo"` there never
produces a cutout at all. -/
theorem c5_module_override_and_freshdeclare_crash (s m : String) (pf : PFVal)
    (st : AttrStore) (p p2 : CutoutParams) (env : Env)
    (hn : normalizeParams p = .ok p2) (hmod : p2.module = some m)
    (hne : m ≠ "era5") (hreg : m ∈ env.sysModules)
    (hfile : env.isFile (ensure_path s false env) = true)
    (hdata : (env.fileData (ensure_path s false env)).1 = attrsEra5PF pf) :
    (∃ c st2, cutoutInit (.str s) none p env st = .ok (c, st2) ∧
      (st2.get c.data.attrsRef).module = some m) ∧
    cutoutInit (.str "fresh") none paramsFullFoo envEmpty [] =
      .error .attributeError := by
  refine ⟨?_, rfl⟩
  rw [cutoutInit_str s none p p2 env st hn]
  simp only [Option.isSome_none]
  rcases pf with s0 | l
  · have hpf : (env.fileData (ensure_path s false env)).1.prepared_features =
        some (.str s0) := by rw [hdata]; rfl
    rw [loadState_file_str _ _ _ _ hfile hpf]
    dsimp only
    have hlen : st.length <
        (st ++ [(env.fileData (ensure_path s false env)).1]).length := by
      simp
    have hget := attrStore_get_put_self
      (st ++ [(env.fileData (ensure_path s false env)).1]) st.length
      { (env.fileData (ensure_path s false env)).1 with
        prepared_features := some (.list [s0]) } hlen
    have hmodule : (AttrStore.get
        ((st ++ [(env.fileData (ensure_path s false env)).1]).put st.length
          { (env.fileData (ensure_path s false env)).1 with
            prepared_features := some (.list [s0]) })
        st.length).module = some "era5" := by
      rw [hget, hdata]; rfl
    have hlen2 : st.length <
        ((st ++ [(env.fileData (ensure_path s false env)).1]).put st.length
          { (env.fileData (ensure_path s false env)).1 with
            prepared_features := some (.list [s0]) }).length := by
      simp [AttrStore.put]
    rw [finishInit_override _ _ _ _ _ _ m hmod
      (by rw [hmodule]; simp [hne]) hlen2 hreg]
    refine ⟨_, _, rfl, ?_⟩
    rw [attrStore_get_put_self _ _ _ hlen2]
  · have hpf : (env.fileData (ensure_path s false env)).1.prepared_features =
        some (.list l) := by rw [hdata]; rfl
    rw [loadState_file_list _ _ _ _ hfile hpf]
    dsimp only
    have hget := attrStore_get_append_len st
      (env.fileData (ensure_path s false env)).1
    have hmodule : (AttrStore.get
        (st ++ [(env.fileData (ensure_path s false env)).1])
        st.length).module = some "era5" := by
      rw [hget, hdata]; rfl
    have hlen : st.length <
        (st ++ [(env.fileData (ensure_path s false env)).1]).length := by
      simp
    rw [finishInit_override _ _ _ _ _ _ m hmod
      (by rw [hmodule]; simp [hne]) hlen hreg]
    refine ⟨_, _, rfl, ?_⟩
    rw [attrStore_get_put_self _ _ _ hlen]

/-- Witness for C5: constructing with `module = "foo"` against a
persisted `era5` store yields a cutout whose recorded module is
`"foo"`. -/
theorem c5_module_override_and_freshdeclare_crash_witness :
    (∃ c st2,
      cutoutInit (.str "w") none { module := some "foo" }
        (envFileEra5 (.list [])) [] = .ok (c, st2) ∧
      (st2.get c.data.attrsRef).module = some "foo") ∧
    cutoutInit (.str "fresh") none paramsFullFoo envEmpty [] =
      .error .attributeError :=
  c5_module_override_and_freshdeclare_crash "w" "foo" (.list []) []
    { module := some "foo" } { module := some "foo" } (envFileEra5 (.list []))
    rfl rfl (by decide) (by decide) rfl rfl

/-- Claim C4.  `sel` never mutates the receiver: the receiver's
attribute dictionary is untouched in the heap afterwards (and its
coordinate grid, hence `extent`, is a pure function of the receiver
value that `sel` cannot touch at all), while the returned cutout has
`is_view = true` and wraps the dataset narrowed by the (normalized)
selectors. -/
theorem c4_sel_returns_view_without_mutating (c : Cutout) (a : SelArgs)
    (env : Env) (st : AttrStore) (m : String)
    (href : c.data.attrsRef < st.length)
    (hm : (st.get c.data.attrsRef).module = some m)
    (hreg : m ∈ env.sysModules) :
    ∃ v st2, Cutout.sel c a env st = .ok (v, st2) ∧
      v.is_view = true ∧
      v.data.coords = ⟨sliceSel c.data.coords.x (selNormalize a).x,
        sliceSel c.data.coords.y (selNormalize a).y⟩ ∧
      st2.get c.data.attrsRef = st.get c.data.attrsRef := by
  simp only [Cutout.sel, dsSel, AttrStore.alloc]
  rw [cutoutInit_str _ _ {} {} env _ rfl]
  rw [loadState_caller]
  dsimp only
  have hget : AttrStore.get (st ++ [st.get c.data.attrsRef]) st.length =
      st.get c.data.attrsRef := attrStore_get_append_len st _
  rw [finishInit_keep _ _ _ _ _ _ m rfl (by rw [hget]; exact hm) hreg]
  refine ⟨_, _, rfl, rfl, rfl, ?_⟩
  exact attrStore_get_append st _ _ href

/-- Witness for C4 on a concrete cutout, heap and bounds-with-buffer
selection. -/
theorem c4_sel_returns_view_without_mutating_witness :
    cutoutGrid.data.attrsRef < storeEra5.length ∧
    ∃ v st2,
      Cutout.sel cutoutGrid { bounds := some (1, 0, 2, 1), buffer := some 1 }
        envEmpty storeEra5 = .ok (v, st2) ∧
      v.is_view = true ∧
      v.data.coords = ⟨sliceSel cutoutGrid.data.coords.x
          (selNormalize { bounds := some (1, 0, 2, 1), buffer := some 1 }).x,
        sliceSel cutoutGrid.data.coords.y
          (selNormalize { bounds := some (1, 0, 2, 1), buffer := some 1 }).y⟩ ∧
      st2.get cutoutGrid.data.attrsRef = storeEra5.get cutoutGrid.data.attrsRef :=
  ⟨by decide,
    c4_sel_returns_view_without_mutating cutoutGrid
      { bounds := some (1, 0, 2, 1), buffer := some 1 } envEmpty storeEra5
      "era5" (by decide) rfl (by decide)⟩
